import Mathlib

/-!
Verification development for the fluxor.js gateway client and rate limiter.

The definitions below are a shallow embedding of `src/gateway/GatewayClient.ts`
(the concatenated source file `src/src/index.ts`): the mutable private fields of
`GatewayClient` become the record `Fluxor.GatewayState`, each private handler
becomes an explicit state-passing function, and timer callbacks become events of
a small labelled step system.  Parts of the repository whose source files are
not present (the numeric close-code constants from `closeCodes.ts` and the
sliding-window rate-limit bucket from `RateLimitBucket.ts`) are modelled from
the specification and marked as such in their doc comments.
-/

namespace Fluxor

/-- Modelled from the spec: the operation codes of `opcodes.ts` (the file is not
among the sources).  Only the identity of each code matters to the message
handler's `switch`, so the codes are an inductive enumeration rather than
numerals. -/
inductive FluxorOpCode where
  | Hello
  | HeartbeatAck
  | Heartbeat
  | InvalidSession
  | Reconnect
  | Dispatch
  | Identify
  | Resume
  deriving DecidableEq, Repr

/-- The shapes the handler casts `packet.d` to: `HelloData` (a heartbeat
interval), a resumable boolean for InvalidSession, or an opaque dispatch body
of which only the optional `session_id` field is ever read. -/
inductive PacketData where
  | helloD (heartbeat_interval : Nat)
  | boolD (b : Bool)
  | dispatchD (session_id : Option String)
  | noneD
  deriving DecidableEq, Repr

/-- `(packet.d as HelloData).heartbeat_interval`; a mis-shaped cast reads 0. -/
def PacketData.heartbeatIntervalOf : PacketData → Nat
  | .helloD i => i
  | _ => 0

/-- `packet.d as boolean` for InvalidSession; a mis-shaped cast reads false. -/
def PacketData.asBool : PacketData → Bool
  | .boolD b => b
  | _ => false

/-- `(data as GatewayEvents["READY"])?.session_id ?? ""`. -/
def PacketData.sessionIdOf : PacketData → String
  | .dispatchD (some s) => s
  | _ => ""

/-- An inbound gateway frame `{ op, d, s, t }`. -/
structure GatewayPacket where
  op : FluxorOpCode
  d : PacketData
  s : Option Nat
  t : Option String
  deriving DecidableEq, Repr

/-- The mutable private fields of `GatewayClient` that the verified handlers
read or write.  `wsOpen` stands for `this._ws !== null && this._ws.readyState
=== WebSocket.OPEN`; `heartbeatTimerActive` for `this._heartbeatInterval !==
null`. -/
structure GatewayState where
  sequence : Nat
  sessionId : String
  heartbeatAcked : Bool
  heartbeatTimerActive : Bool
  reconnectAttempts : Nat
  isConnecting : Bool
  isReconnecting : Bool
  destroyed : Bool
  wsOpen : Bool
  deriving DecidableEq, Repr

/-- Field values right after the constructor runs. -/
def initialState : GatewayState :=
  { sequence := 0
    sessionId := ""
    heartbeatAcked := true
    heartbeatTimerActive := false
    reconnectAttempts := 0
    isConnecting := false
    isReconnecting := false
    destroyed := false
    wsOpen := false }

/-- An emission on the typed event emitter. -/
inductive Emit where
  | raw (event : String) (data : PacketData)
  | named (event : String) (data : PacketData)
  | heartbeatAck
  deriving DecidableEq, Repr

/-- An outbound gateway frame produced by `_send`. -/
inductive OutFrame where
  | heartbeat (seq : Option Nat)
  | identify
  | resume (sessionId : String) (seq : Nat)
  deriving DecidableEq, Repr

/-- `_send`: the frame goes out only while the WebSocket is open; otherwise it
is dropped with a warning. -/
def sendFrame (st : GatewayState) (f : OutFrame) : List OutFrame :=
  if st.wsOpen then [f] else []

/-- `_stopHeartbeat`. -/
def stopHeartbeat (st : GatewayState) : GatewayState :=
  { st with heartbeatTimerActive := false }

/-- `_cleanup`: stop the heartbeat timer and close/discard the WebSocket. -/
def cleanup (st : GatewayState) : GatewayState :=
  { st with heartbeatTimerActive := false, wsOpen := false }

/-- `destroy()`: set the terminal flag, then `_cleanup`. -/
def destroy (st : GatewayState) : GatewayState :=
  cleanup { st with destroyed := true }

/-- `_sendHeartbeat`: clear the ack flag and send `{ op: Heartbeat,
d: this._sequence || null }` (a zero sequence is falsy, hence `null`). -/
def sendHeartbeat (st : GatewayState) : GatewayState × List OutFrame :=
  ({ st with heartbeatAcked := false },
   sendFrame st (OutFrame.heartbeat (if st.sequence = 0 then none else some st.sequence)))

/-- `_startHeartbeat`: stop any previous timer, set the ack flag, arm the
heartbeat timer chain. -/
def startHeartbeat (st : GatewayState) : GatewayState :=
  { st with heartbeatTimerActive := true, heartbeatAcked := true }

/-- The branch of `_handleHello`: RESUME when a session id survives, else
IDENTIFY. -/
def helloFrame (st : GatewayState) : OutFrame :=
  if st.sessionId ≠ "" then OutFrame.resume st.sessionId st.sequence
  else OutFrame.identify

/-- `_handleHello`: start heartbeating, then send RESUME or IDENTIFY. -/
def handleHello (st : GatewayState) : GatewayState × List OutFrame :=
  let st1 := startHeartbeat st
  (st1, sendFrame st1 (helloFrame st1))

/-- `_scheduleReconnect`: the returned boolean records whether a reconnect
timer was actually created. -/
def scheduleReconnect (maxAttempts : Nat) (st : GatewayState) : GatewayState × Bool :=
  if st.destroyed then (st, false)
  else if st.isReconnecting then (st, false)
  else if maxAttempts ≤ st.reconnectAttempts then
    ({ st with isReconnecting := false }, false)
  else
    ({ st with isReconnecting := true, reconnectAttempts := st.reconnectAttempts + 1 }, true)

/-- The synchronous prefix of `connect()`: the duplicate-call guard, then
resetting the destroyed flag and cleaning up the previous connection before a
new (not yet open) WebSocket is created. -/
def connectStart (st : GatewayState) : GatewayState :=
  if st.isConnecting then st
  else cleanup { st with isConnecting := true, destroyed := false }

/-- The `setTimeout` callback of `_scheduleReconnect`: drop the pending flag,
then invoke `connect()` unless destroyed.  The boolean records whether
`connect()` was invoked. -/
def reconnectTimerFire (st : GatewayState) : GatewayState × Bool :=
  let st1 := { st with isReconnecting := false }
  if st1.destroyed then (st1, false) else (connectStart st1, true)

/-- `_handleCloseCode` clears the session exactly for these three codes.
Modelled from the spec: the numeric values of `FluxorCloseCode` (4004
authentication failed, 4007 invalid sequence, 4009 session timed out) come
from the spec because `closeCodes.ts` is not among the sources. -/
def handleCloseCode (code : Nat) (st : GatewayState) : GatewayState :=
  if code = 4004 ∨ code = 4007 ∨ code = 4009 then
    { st with sessionId := "", sequence := 0 }
  else st

/-- `_handleDispatch`: returns the new state, the emissions in order, and
whether the pending `connect()` promise was settled (`onReady` invoked). -/
def handleDispatch (ignored : List String) (st : GatewayState) (pkt : GatewayPacket) :
    GatewayState × List Emit × Bool :=
  match pkt.t with
  | none => (st, [], false)
  | some eventName =>
    if eventName = "" then (st, [], false)
    else if eventName ∈ ignored then (st, [], false)
    else
      let rawE := Emit.raw eventName pkt.d
      if eventName = "READY" then
        ({ st with sessionId := pkt.d.sessionIdOf, reconnectAttempts := 0,
                   isConnecting := false },
         [rawE, Emit.named "READY" pkt.d], true)
      else if eventName = "RESUMED" then
        ({ st with reconnectAttempts := 0, isConnecting := false },
         [rawE, Emit.named "RESUMED" pkt.d], true)
      else
        (st, [rawE, Emit.named eventName pkt.d], false)

/-- The observable effects of one handler invocation. -/
structure Effects where
  emits : List Emit := []
  sends : List OutFrame := []
  timerCreated : Bool := false
  settled : Bool := false
  deriving DecidableEq, Repr

/-- The sequence-tracking prologue of `_handleMessage`:
`if (packet.s !== null && packet.s !== undefined) this._sequence = packet.s`. -/
def trackSeq (st : GatewayState) : Option Nat → GatewayState
  | some s => { st with sequence := s }
  | none => st

/-- `_handleMessage` on an already-parsed packet: track the sequence number,
then dispatch on the opcode. -/
def handleMessage (ignored : List String) (maxAttempts : Nat)
    (st : GatewayState) (pkt : GatewayPacket) : GatewayState × Effects :=
  let st0 := trackSeq st pkt.s
  match pkt.op with
  | .Hello =>
      ((handleHello st0).1, { sends := (handleHello st0).2 })
  | .HeartbeatAck =>
      ({ st0 with heartbeatAcked := true }, { emits := [Emit.heartbeatAck] })
  | .Heartbeat =>
      ((sendHeartbeat st0).1, { sends := (sendHeartbeat st0).2 })
  | .InvalidSession =>
      let st1 := if pkt.d.asBool then st0
                 else { st0 with sessionId := "", sequence := 0 }
      let r := scheduleReconnect maxAttempts (cleanup st1)
      (r.1, { timerCreated := r.2 })
  | .Reconnect =>
      let r := scheduleReconnect maxAttempts (cleanup st0)
      (r.1, { timerCreated := r.2 })
  | .Dispatch =>
      let r := handleDispatch ignored st0 pkt
      (r.1, { emits := r.2.1, settled := r.2.2 })
  | _ => (st0, {})

/-- The `setInterval` callback of `_startHeartbeat`: an unacknowledged previous
heartbeat means the connection is a zombie — tear down and schedule a
reconnect; otherwise send the next heartbeat.  Returns the new state, the
frames sent, and whether a reconnect timer was created. -/
def heartbeatTick (maxAttempts : Nat) (st : GatewayState) :
    GatewayState × List OutFrame × Bool :=
  if st.heartbeatAcked = false then
    let r := scheduleReconnect maxAttempts (cleanup st)
    (r.1, [], r.2)
  else
    ((sendHeartbeat st).1, (sendHeartbeat st).2, false)

-- ── Timer/event step system over the gateway state ──────────────────────────

/-- The gateway together with two ghost observers: `pending` counts reconnect
timers currently in flight, `connects` counts `connect()` invocations made by
reconnect-timer callbacks. -/
structure GwSys where
  gw : GatewayState
  pending : Nat
  connects : Nat
  deriving DecidableEq, Repr

def initSys : GwSys :=
  { gw := initialState, pending := 0, connects := 0 }

/-- The events that drive the gateway: the transport completing its open, an
inbound frame, a heartbeat-interval tick, a pending reconnect timer firing, a
direct internal call to `_scheduleReconnect` (e.g. from the close handler),
and a call to `destroy()`. -/
inductive GwEvent where
  | wsOpened
  | frame (pkt : GatewayPacket)
  | tick
  | fire
  | sched
  | destroyCall
  deriving DecidableEq, Repr

def stepGw (ignored : List String) (maxAttempts : Nat) (sys : GwSys) :
    GwEvent → GwSys × Effects
  | .wsOpened =>
      ({ sys with gw := { sys.gw with wsOpen := true } }, {})
  | .frame pkt =>
      let r := handleMessage ignored maxAttempts sys.gw pkt
      ({ sys with gw := r.1,
                  pending := sys.pending + (if r.2.timerCreated then 1 else 0) }, r.2)
  | .tick =>
      let r := heartbeatTick maxAttempts sys.gw
      ({ sys with gw := r.1,
                  pending := sys.pending + (if r.2.2 then 1 else 0) },
       { sends := r.2.1, timerCreated := r.2.2 })
  | .fire =>
      if sys.pending = 0 then (sys, {})
      else
        let r := reconnectTimerFire sys.gw
        ({ gw := r.1, pending := sys.pending - 1,
           connects := sys.connects + (if r.2 then 1 else 0) }, {})
  | .sched =>
      let r := scheduleReconnect maxAttempts sys.gw
      ({ sys with gw := r.1,
                  pending := sys.pending + (if r.2 then 1 else 0) }, {})
  | .destroyCall =>
      ({ sys with gw := destroy sys.gw }, {})

def runGw (ignored : List String) (maxAttempts : Nat) (sys : GwSys)
    (evs : List GwEvent) : GwSys :=
  evs.foldl (fun s e => (stepGw ignored maxAttempts s e).1) sys

-- ── Backoff policy (`_scheduleReconnect`, lines computing the delay) ─────────

/-- `Math.min(Math.pow(2, attempts - 1) * configBase, 60)` in seconds. -/
def backoffSeconds (attempts : Nat) (base : ℚ) : ℚ :=
  min ((2 ^ (attempts - 1) : ℚ) * base) 60

/-- `(backoff + Math.random() * 0.3 * backoff) * 1000`, with `r` the value
drawn from `Math.random()`. -/
def reconnectDelayMs (attempts : Nat) (base r : ℚ) : ℚ :=
  let backoff := backoffSeconds attempts base
  let jitter := r * (3 / 10) * backoff
  (backoff + jitter) * 1000

-- ── `waitFor` (GatewayClient.waitFor) ────────────────────────────────────────

/-- How a `waitFor` promise settled. -/
inductive WaitOutcome where
  | resolvedWith (d : Nat)
  | rejectedTimeout
  deriving DecidableEq, Repr

/-- The private state of one `waitFor` call: whether its handler is still
registered on the emitter, whether its timeout timer is still armed, and how
the promise settled (if it has).  Event payloads are modelled as naturals. -/
structure WaitForState where
  listenerActive : Bool
  timerActive : Bool
  outcome : Option WaitOutcome
  deriving DecidableEq, Repr

/-- State right after `waitFor` runs its promise executor: the handler is
registered, and a timer is armed exactly when `timeout !== undefined &&
timeout > 0`. -/
def initWaitFor (timeout : Option Int) : WaitForState :=
  { listenerActive := true
    timerActive := match timeout with
      | some v => decide (0 < v)
      | none => false
    outcome := none }

/-- Events a pending `waitFor` can observe: the emitter emitting an event, or
the timeout timer firing. -/
inductive WFEvent where
  | emitEv (name : String) (d : Nat)
  | timerFire
  deriving DecidableEq, Repr

/-- One event against a `waitFor` call on `eventName` with filter `filter`.
The handler runs only while registered; `cleanup` removes the handler and
clears the timer before settling.  A timer fire is possible only while the
timer is armed (`clearTimeout` disarms it). -/
def stepWaitFor (eventName : String) (filter : Nat → Bool)
    (s : WaitForState) : WFEvent → WaitForState
  | .emitEv name d =>
      if s.listenerActive ∧ name = eventName then
        if filter d then
          { listenerActive := false, timerActive := false,
            outcome := some (WaitOutcome.resolvedWith d) }
        else s
      else s
  | .timerFire =>
      if s.timerActive then
        { listenerActive := false, timerActive := false,
          outcome := some WaitOutcome.rejectedTimeout }
      else s

def runWaitFor (eventName : String) (filter : Nat → Bool)
    (s : WaitForState) (evs : List WFEvent) : WaitForState :=
  evs.foldl (stepWaitFor eventName filter) s

/-- The emitter's listener count for the awaited event, given `n` listeners
present before the `waitFor` call. -/
def listenerCount (n : Nat) (s : WaitForState) : Nat :=
  n + (if s.listenerActive then 1 else 0)

/-- The `waitFor` state invariant relative to whether a timer was installed
(`t`): while pending, the handler is registered and the timer state is as
installed; once settled, both have been cleaned up. -/
def waitForInv (t : Bool) (s : WaitForState) : Prop :=
  (s.outcome = none → s.listenerActive = true ∧ s.timerActive = t) ∧
  (∀ o, s.outcome = some o → s.listenerActive = false ∧ s.timerActive = false)

-- ── Sliding-window rate-limit bucket ─────────────────────────────────────────

/-- Modelled from the spec: `RateLimitBucket.acquire` step 1 (the file
`RateLimitBucket.ts` is not among the sources) — prune all recorded timestamps
older than `now - windowMs`.  Instants are integer epoch milliseconds. -/
def prune (windowMs now : ℤ) (ts : List ℤ) : List ℤ :=
  ts.filter (fun t => now - windowMs ≤ t)

/-- The admission decision: admit now with the updated timestamp list, or tell
the caller how long to wait before retrying. -/
inductive AcquireResult where
  | admitted (newTs : List ℤ)
  | waitMs (w : ℤ)
  deriving DecidableEq, Repr

/-- Modelled from the spec: `RateLimitBucket.acquire` (the file
`RateLimitBucket.ts` is not among the sources).  Prune, admit and record `now`
if below `limit`, otherwise wait `(oldestRemainingTimestamp + windowMs) - now`
and retry.  Timestamps are kept in arrival (hence ascending) order, so the
oldest remaining one is the head. -/
def acquire (limit : Nat) (windowMs : ℤ) (ts : List ℤ) (now : ℤ) : AcquireResult :=
  let pruned := prune windowMs now ts
  if pruned.length < limit then AcquireResult.admitted (pruned ++ [now])
  else AcquireResult.waitMs (pruned.headD 0 + windowMs - now)

/-- The effect of one admission attempt on the timestamp list: replaced when
admitted, unchanged when told to wait. -/
def bucketStep (limit : Nat) (windowMs : ℤ) (ts : List ℤ) (now : ℤ) : List ℤ :=
  match acquire limit windowMs ts now with
  | .admitted ts1 => ts1
  | .waitMs _ => ts

/-- A serialized sequence of admission attempts against one (initially empty)
bucket. -/
def runBucket (limit : Nat) (windowMs : ℤ) (attempts : List ℤ) : List ℤ :=
  attempts.foldl (bucketStep limit windowMs) []

/-- The count of recorded timestamps younger than `windowMs` as seen at time
`now`. -/
def youngCount (windowMs now : ℤ) (ts : List ℤ) : Nat :=
  (ts.filter (fun t => now - windowMs < t)).length

/-- The ghost-counter invariant: a reconnect timer is in flight exactly while
the `_isReconnecting` guard is set. -/
def pendingInv (sys : GwSys) : Prop :=
  sys.pending = if sys.gw.isReconnecting = true then 1 else 0

/-- A HELLO frame carrying a heartbeat interval. -/
def helloPkt : GatewayPacket :=
  { op := .Hello, d := .helloD 41250, s := none, t := none }

/-- A server-requested immediate heartbeat frame. -/
def hbRequestPkt : GatewayPacket :=
  { op := .Heartbeat, d := .noneD, s := none, t := none }

/-- A dispatch frame carrying only a sequence number. -/
def seqOnlyPkt (s : Nat) : GatewayPacket :=
  { op := .Dispatch, d := .noneD, s := some s, t := none }

/-- A dispatch frame for the named event, with no sequence number. -/
def dispatchPkt (name : String) : GatewayPacket :=
  { op := .Dispatch, d := .noneD, s := none, t := some name }

-- ── Helper lemmas ────────────────────────────────────────────────────────────

theorem scheduleReconnect_fields (m : Nat) (st : GatewayState) :
    (scheduleReconnect m st).1.destroyed = st.destroyed ∧
    (scheduleReconnect m st).1.sequence = st.sequence ∧
    (scheduleReconnect m st).1.sessionId = st.sessionId ∧
    (scheduleReconnect m st).1.wsOpen = st.wsOpen ∧
    (scheduleReconnect m st).1.heartbeatTimerActive = st.heartbeatTimerActive ∧
    (scheduleReconnect m st).1.heartbeatAcked = st.heartbeatAcked ∧
    (scheduleReconnect m st).1.isConnecting = st.isConnecting := by
  unfold scheduleReconnect
  split_ifs <;> simp

theorem scheduleReconnect_created_true (m : Nat) (st : GatewayState)
    (h : (scheduleReconnect m st).2 = true) :
    st.isReconnecting = false ∧ (scheduleReconnect m st).1.isReconnecting = true := by
  unfold scheduleReconnect at h ⊢
  split_ifs at h ⊢ with h1 h2 h3 <;> simp_all

theorem scheduleReconnect_created_false (m : Nat) (st : GatewayState)
    (h : (scheduleReconnect m st).2 = false) :
    (scheduleReconnect m st).1.isReconnecting = st.isReconnecting := by
  unfold scheduleReconnect at h ⊢
  split_ifs at h ⊢ with h1 h2 h3 <;> simp_all

theorem scheduleReconnect_noop_of_isReconnecting (m : Nat) (st : GatewayState)
    (h : st.isReconnecting = true) : scheduleReconnect m st = (st, false) := by
  unfold scheduleReconnect
  split_ifs <;> simp_all

theorem trackSeq_fields (st : GatewayState) (o : Option Nat) :
    (trackSeq st o).isReconnecting = st.isReconnecting ∧
    (trackSeq st o).destroyed = st.destroyed ∧
    (trackSeq st o).sessionId = st.sessionId ∧
    (trackSeq st o).heartbeatAcked = st.heartbeatAcked ∧
    (trackSeq st o).wsOpen = st.wsOpen ∧
    (trackSeq st o).isConnecting = st.isConnecting ∧
    (trackSeq st o).reconnectAttempts = st.reconnectAttempts ∧
    (trackSeq st o).heartbeatTimerActive = st.heartbeatTimerActive := by
  cases o <;> simp [trackSeq]

theorem handleDispatch_gwFields (ignored : List String) (st : GatewayState)
    (pkt : GatewayPacket) :
    (handleDispatch ignored st pkt).1.isReconnecting = st.isReconnecting ∧
    (handleDispatch ignored st pkt).1.destroyed = st.destroyed ∧
    (handleDispatch ignored st pkt).1.sequence = st.sequence := by
  unfold handleDispatch
  cases pkt.t <;> simp <;> split_ifs <;> simp

theorem handleMessage_timerCreated_true (ignored : List String) (m : Nat)
    (st : GatewayState) (pkt : GatewayPacket)
    (h : (handleMessage ignored m st pkt).2.timerCreated = true) :
    st.isReconnecting = false ∧ (handleMessage ignored m st pkt).1.isReconnecting = true := by
  unfold handleMessage at h ⊢
  cases hop : pkt.op <;> simp only [hop] at h ⊢
  case InvalidSession =>
    obtain ⟨h1, h2⟩ := scheduleReconnect_created_true m _ h
    refine ⟨?_, h2⟩
    by_cases hb : pkt.d.asBool = true <;>
      simp [cleanup, hb, (trackSeq_fields st pkt.s).1] at h1 <;> exact h1
  case Reconnect =>
    obtain ⟨h1, h2⟩ := scheduleReconnect_created_true m _ h
    refine ⟨?_, h2⟩
    simpa [cleanup, (trackSeq_fields st pkt.s).1] using h1
  all_goals simp_all

theorem handleMessage_timerCreated_false (ignored : List String) (m : Nat)
    (st : GatewayState) (pkt : GatewayPacket)
    (h : (handleMessage ignored m st pkt).2.timerCreated = false) :
    (handleMessage ignored m st pkt).1.isReconnecting = st.isReconnecting := by
  unfold handleMessage at h ⊢
  cases hop : pkt.op <;> simp only [hop] at h ⊢
  case Hello =>
    simp [handleHello, startHeartbeat, (trackSeq_fields st pkt.s).1]
  case HeartbeatAck => simp [(trackSeq_fields st pkt.s).1]
  case Heartbeat => simp [sendHeartbeat, (trackSeq_fields st pkt.s).1]
  case InvalidSession =>
    have h2 := scheduleReconnect_created_false m _ h
    rw [h2]
    by_cases hb : pkt.d.asBool = true <;>
      simp [cleanup, hb, (trackSeq_fields st pkt.s).1]
  case Reconnect =>
    have h2 := scheduleReconnect_created_false m _ h
    rw [h2]
    simp [cleanup, (trackSeq_fields st pkt.s).1]
  case Dispatch =>
    rw [(handleDispatch_gwFields ignored _ pkt).1, (trackSeq_fields st pkt.s).1]
  all_goals simp [(trackSeq_fields st pkt.s).1]

theorem handleMessage_destroyed (ignored : List String) (m : Nat)
    (st : GatewayState) (pkt : GatewayPacket) :
    (handleMessage ignored m st pkt).1.destroyed = st.destroyed := by
  unfold handleMessage
  cases hop : pkt.op <;> simp only [hop]
  case Hello => simp [handleHello, startHeartbeat, (trackSeq_fields st pkt.s).2.1]
  case HeartbeatAck => simp [(trackSeq_fields st pkt.s).2.1]
  case Heartbeat => simp [sendHeartbeat, (trackSeq_fields st pkt.s).2.1]
  case InvalidSession =>
    rw [(scheduleReconnect_fields m _).1]
    by_cases hb : pkt.d.asBool = true <;>
      simp [cleanup, hb, (trackSeq_fields st pkt.s).2.1]
  case Reconnect =>
    rw [(scheduleReconnect_fields m _).1]
    simp [cleanup, (trackSeq_fields st pkt.s).2.1]
  case Dispatch =>
    rw [(handleDispatch_gwFields ignored _ pkt).2.1, (trackSeq_fields st pkt.s).2.1]
  all_goals simp [(trackSeq_fields st pkt.s).2.1]

theorem heartbeatTick_created_true (m : Nat) (st : GatewayState)
    (h : (heartbeatTick m st).2.2 = true) :
    st.isReconnecting = false ∧ (heartbeatTick m st).1.isReconnecting = true := by
  unfold heartbeatTick at h ⊢
  split_ifs at h ⊢ with hb
  obtain ⟨h1, h2⟩ := scheduleReconnect_created_true m _ h
  exact ⟨by simpa [cleanup] using h1, h2⟩

theorem heartbeatTick_created_false (m : Nat) (st : GatewayState)
    (h : (heartbeatTick m st).2.2 = false) :
    (heartbeatTick m st).1.isReconnecting = st.isReconnecting := by
  unfold heartbeatTick at h ⊢
  split_ifs at h ⊢ with hb
  · have h2 := scheduleReconnect_created_false m _ h
    simpa [cleanup] using h2
  · simp [sendHeartbeat]

theorem heartbeatTick_destroyed (m : Nat) (st : GatewayState) :
    (heartbeatTick m st).1.destroyed = st.destroyed := by
  unfold heartbeatTick
  split_ifs with hb
  · rw [(scheduleReconnect_fields m _).1]; simp [cleanup]
  · simp [sendHeartbeat]

theorem reconnectTimerFire_isReconnecting (st : GatewayState) :
    (reconnectTimerFire st).1.isReconnecting = false := by
  unfold reconnectTimerFire connectStart
  dsimp only
  split_ifs <;> simp [cleanup]

theorem reconnectTimerFire_destroyed_true (st : GatewayState)
    (h : st.destroyed = true) :
    (reconnectTimerFire st).1.destroyed = true ∧ (reconnectTimerFire st).2 = false := by
  unfold reconnectTimerFire
  simp [h]

theorem stepGw_pendingInv (ignored : List String) (m : Nat) (sys : GwSys)
    (e : GwEvent) (h : pendingInv sys) : pendingInv (stepGw ignored m sys e).1 := by
  unfold pendingInv at h ⊢
  cases e
  case wsOpened => simpa [stepGw] using h
  case frame pkt =>
    simp only [stepGw]
    by_cases hc : (handleMessage ignored m sys.gw pkt).2.timerCreated = true
    · obtain ⟨h1, h2⟩ := handleMessage_timerCreated_true ignored m sys.gw pkt hc
      simp [hc, h2, h, h1]
    · have hc' : (handleMessage ignored m sys.gw pkt).2.timerCreated = false := by
        simpa using hc
      have h2 := handleMessage_timerCreated_false ignored m sys.gw pkt hc'
      simp [hc', h2, h]
  case tick =>
    simp only [stepGw]
    by_cases hc : (heartbeatTick m sys.gw).2.2 = true
    · obtain ⟨h1, h2⟩ := heartbeatTick_created_true m sys.gw hc
      simp [hc, h2, h, h1]
    · have hc' : (heartbeatTick m sys.gw).2.2 = false := by simpa using hc
      have h2 := heartbeatTick_created_false m sys.gw hc'
      simp [hc', h2, h]
  case fire =>
    simp only [stepGw]
    by_cases hp : sys.pending = 0
    · simpa [hp] using h
    · have hrec : sys.gw.isReconnecting = true := by
        by_contra hr
        simp [eq_false_of_ne_true hr] at h
        exact hp h
      simp [hp, reconnectTimerFire_isReconnecting, h, hrec]
  case sched =>
    simp only [stepGw]
    by_cases hc : (scheduleReconnect m sys.gw).2 = true
    · obtain ⟨h1, h2⟩ := scheduleReconnect_created_true m sys.gw hc
      simp [hc, h2, h, h1]
    · have hc' : (scheduleReconnect m sys.gw).2 = false := by simpa using hc
      have h2 := scheduleReconnect_created_false m sys.gw hc'
      simp [hc', h2, h]
  case destroyCall =>
    simpa [stepGw, destroy, cleanup] using h

theorem runGw_pendingInv (ignored : List String) (m : Nat) (evs : List GwEvent)
    (sys : GwSys) (h : pendingInv sys) : pendingInv (runGw ignored m sys evs) := by
  induction evs generalizing sys with
  | nil => simpa [runGw] using h
  | cons e evs ih =>
      have h1 := stepGw_pendingInv ignored m sys e h
      simpa [runGw] using ih _ h1

theorem stepGw_destroyed_connects (ignored : List String) (m : Nat) (sys : GwSys)
    (e : GwEvent) (h : sys.gw.destroyed = true) :
    (stepGw ignored m sys e).1.gw.destroyed = true ∧
    (stepGw ignored m sys e).1.connects = sys.connects := by
  cases e
  case wsOpened => simpa [stepGw] using h
  case frame pkt => simp [stepGw, handleMessage_destroyed, h]
  case tick => simp [stepGw, heartbeatTick_destroyed, h]
  case fire =>
    by_cases hp : sys.pending = 0
    · simp [stepGw, hp, h]
    · obtain ⟨h1, h2⟩ := reconnectTimerFire_destroyed_true sys.gw h
      simp [stepGw, hp, h1, h2]
  case sched => simp [stepGw, (scheduleReconnect_fields m sys.gw).1, h]
  case destroyCall => simp [stepGw, destroy, cleanup]

theorem runGw_destroyed_connects (ignored : List String) (m : Nat)
    (evs : List GwEvent) (sys : GwSys) (h : sys.gw.destroyed = true) :
    (runGw ignored m sys evs).gw.destroyed = true ∧
    (runGw ignored m sys evs).connects = sys.connects := by
  induction evs generalizing sys with
  | nil => simpa [runGw] using h
  | cons e evs ih =>
      obtain ⟨h1, h2⟩ := stepGw_destroyed_connects ignored m sys e h
      obtain ⟨h3, h4⟩ := ih _ h1
      exact ⟨by simpa [runGw] using h3, by simp [runGw] at h4 ⊢; omega⟩

theorem stepWaitFor_inv (eventName : String) (filter : Nat → Bool) (t : Bool)
    (s : WaitForState) (e : WFEvent) (h : waitForInv t s) :
    waitForInv t (stepWaitFor eventName filter s e) := by
  obtain ⟨h1, h2⟩ := h
  cases e
  case emitEv name d =>
    by_cases hc : s.listenerActive = true ∧ name = eventName
    · by_cases hf : filter d = true
      · simp [stepWaitFor, hc, hf, waitForInv]
      · have hs : stepWaitFor eventName filter s (.emitEv name d) = s := by
          simp [stepWaitFor, hc, hf]
        rw [hs]; exact ⟨h1, h2⟩
    · have hs : stepWaitFor eventName filter s (.emitEv name d) = s := by
        simp [stepWaitFor, hc]
      rw [hs]; exact ⟨h1, h2⟩
  case timerFire =>
    by_cases hc : s.timerActive = true
    · simp [stepWaitFor, hc, waitForInv]
    · have hs : stepWaitFor eventName filter s .timerFire = s := by
        simp [stepWaitFor, eq_false_of_ne_true hc]
      rw [hs]; exact ⟨h1, h2⟩

theorem runWaitFor_inv (eventName : String) (filter : Nat → Bool) (t : Bool)
    (evs : List WFEvent) (s : WaitForState) (h : waitForInv t s) :
    waitForInv t (runWaitFor eventName filter s evs) := by
  induction evs generalizing s with
  | nil => simpa [runWaitFor] using h
  | cons e evs ih =>
      have h1 := stepWaitFor_inv eventName filter t s e h
      simpa [runWaitFor] using ih _ h1

theorem stepWaitFor_fixed (eventName : String) (filter : Nat → Bool)
    (s : WaitForState) (hl : s.listenerActive = false) (ht : s.timerActive = false)
    (e : WFEvent) : stepWaitFor eventName filter s e = s := by
  cases e <;> simp [stepWaitFor, hl, ht]

theorem runWaitFor_fixed (eventName : String) (filter : Nat → Bool)
    (evs : List WFEvent) (s : WaitForState) (hl : s.listenerActive = false)
    (ht : s.timerActive = false) : runWaitFor eventName filter s evs = s := by
  induction evs with
  | nil => simp [runWaitFor]
  | cons e evs ih =>
      rw [runWaitFor, List.foldl_cons, stepWaitFor_fixed eventName filter s hl ht]
      exact ih

theorem runWaitFor_append_one (eventName : String) (filter : Nat → Bool)
    (evs : List WFEvent) (s : WaitForState) (e : WFEvent) :
    runWaitFor eventName filter s (evs ++ [e])
      = stepWaitFor eventName filter (runWaitFor eventName filter s evs) e := by
  simp [runWaitFor, List.foldl_append]

theorem bucketStep_length (limit : Nat) (w : ℤ) (ts : List ℤ) (now : ℤ)
    (h : ts.length ≤ limit) : (bucketStep limit w ts now).length ≤ limit := by
  unfold bucketStep acquire
  dsimp only
  split_ifs with hlen
  · simpa using hlen
  · exact h

theorem runBucket_length (limit : Nat) (w : ℤ) (attempts : List ℤ) :
    (runBucket limit w attempts).length ≤ limit := by
  unfold runBucket
  suffices h : ∀ ts : List ℤ, ts.length ≤ limit →
      (attempts.foldl (bucketStep limit w) ts).length ≤ limit by
    exact h [] (by simp)
  induction attempts with
  | nil => intro ts h; simpa using h
  | cons a as ih =>
      intro ts h
      rw [List.foldl_cons]
      exact ih _ (bucketStep_length limit w ts a h)

-- ── Claim theorems ───────────────────────────────────────────────────────────

/-- C1 (counterexample): a dispatch frame whose non-empty event name is on the
configured ignore-list produces no emission at all — in particular the event is
NOT emitted on the wildcard `raw` channel, contradicting the claim that the
ignore-list suppresses only the named channel. -/
theorem dispatch_ignored_not_on_raw :
    (dispatchPkt "TYPING_START").t = some "TYPING_START" ∧
    "TYPING_START" ≠ "" ∧
    "TYPING_START" ∈ ["TYPING_START"] ∧
    (handleDispatch ["TYPING_START"] initialState (dispatchPkt "TYPING_START")).2.1 = [] := by
  refine ⟨rfl, by decide, by decide, ?_⟩
  decide

/-- C1 (amended): the ignore-list check runs before any emission, so an
ignored event is emitted on no channel at all; every non-ignored dispatched
event with a non-empty name is emitted first on the wildcard `raw` channel
with its name and body. -/
theorem dispatch_raw_emission (ignored : List String) (st : GatewayState)
    (pkt : GatewayPacket) (name : String) (ht : pkt.t = some name) (hne : name ≠ "") :
    (name ∉ ignored →
      (handleDispatch ignored st pkt).2.1.head? = some (Emit.raw name pkt.d)) ∧
    (name ∈ ignored → (handleDispatch ignored st pkt).2.1 = []) := by
  unfold handleDispatch
  rw [ht]
  constructor
  · intro hmem
    simp only [hne, if_false, hmem, ite_false]
    split_ifs <;> simp
  · intro hmem
    simp [hne, hmem]

theorem dispatch_raw_emission_witness :
    ((dispatchPkt "MESSAGE_CREATE").t = some "MESSAGE_CREATE" ∧
      "MESSAGE_CREATE" ≠ "" ∧ "MESSAGE_CREATE" ∉ ["TYPING_START"]) ∧
    (handleDispatch ["TYPING_START"] initialState
        (dispatchPkt "MESSAGE_CREATE")).2.1.head?
      = some (Emit.raw "MESSAGE_CREATE" PacketData.noneD) :=
  ⟨⟨rfl, by decide, by decide⟩,
   (dispatch_raw_emission ["TYPING_START"] initialState (dispatchPkt "MESSAGE_CREATE")
      "MESSAGE_CREATE" rfl (by decide)).1 (by decide)⟩

/-- C2 (counterexample): the handler assigns `this._sequence = packet.s`
unconditionally, so a frame carrying a smaller sequence number than the stored
watermark decreases it — here from 5 down to 3 — with no explicit session
clear involved. -/
theorem sequence_decreases_on_receipt :
    (handleMessage [] 5 initialState (seqOnlyPkt 5)).1.sequence = 5 ∧
    (handleMessage [] 5 (handleMessage [] 5 initialState (seqOnlyPkt 5)).1
        (seqOnlyPkt 3)).1.sequence = 3 := by
  constructor <;> decide

/-- C2 (amended): the stored sequence is overwritten by every inbound frame
that carries a sequence number (for any frame that is not a non-resumable
invalid-session, which explicitly clears the session); the watermark is
therefore non-decreasing only when the received sequence numbers themselves
are non-decreasing, i.e. when the carried number is at least the current
watermark the update never decreases it. -/
theorem sequence_overwrite (ignored : List String) (m : Nat) (st : GatewayState)
    (pkt : GatewayPacket) (s : Nat) (hs : pkt.s = some s)
    (hclear : pkt.op = FluxorOpCode.InvalidSession → pkt.d.asBool = true) :
    (handleMessage ignored m st pkt).1.sequence = s ∧
    (st.sequence ≤ s → st.sequence ≤ (handleMessage ignored m st pkt).1.sequence) := by
  have hseq : (handleMessage ignored m st pkt).1.sequence = s := by
    unfold handleMessage
    cases hop : pkt.op <;> simp only [hop]
    case Hello => simp [handleHello, startHeartbeat, trackSeq, hs]
    case HeartbeatAck => simp [trackSeq, hs]
    case Heartbeat => simp [sendHeartbeat, trackSeq, hs]
    case InvalidSession =>
      rw [(scheduleReconnect_fields m _).2.1]
      simp [cleanup, hclear hop, trackSeq, hs]
    case Reconnect =>
      rw [(scheduleReconnect_fields m _).2.1]
      simp [cleanup, trackSeq, hs]
    case Dispatch =>
      rw [(handleDispatch_gwFields ignored _ pkt).2.2]
      simp [trackSeq, hs]
    all_goals simp [trackSeq, hs]
  exact ⟨hseq, fun hle => by rw [hseq]; exact hle⟩

theorem sequence_overwrite_witness :
    ((seqOnlyPkt 7).s = some 7 ∧
      ((seqOnlyPkt 7).op = FluxorOpCode.InvalidSession → (seqOnlyPkt 7).d.asBool = true)) ∧
    (handleMessage [] 5 initialState (seqOnlyPkt 7)).1.sequence = 7 :=
  ⟨⟨rfl, by decide⟩,
   (sequence_overwrite [] 5 initialState (seqOnlyPkt 7) 7 rfl (by decide)).1⟩

/-- C5: `_handleCloseCode` clears the session identity (sessionId and
sequence) exactly for close codes 4004, 4007 and 4009 and leaves the state
untouched for every other code; and on the next HELLO the client attempts
RESUME exactly when a non-empty session id survives, otherwise a fresh
IDENTIFY. -/
theorem closeCode_session_persistence (code : Nat) (st : GatewayState) :
    ((code = 4004 ∨ code = 4007 ∨ code = 4009) →
      handleCloseCode code st = { st with sessionId := "", sequence := 0 }) ∧
    (¬(code = 4004 ∨ code = 4007 ∨ code = 4009) → handleCloseCode code st = st) ∧
    (st.sessionId ≠ "" →
      helloFrame (startHeartbeat st) = OutFrame.resume st.sessionId st.sequence) ∧
    (st.sessionId = "" → helloFrame (startHeartbeat st) = OutFrame.identify) := by
  refine ⟨?_, ?_, ?_, ?_⟩
  · intro h; simp [handleCloseCode, h]
  · intro h; simp [handleCloseCode, h]
  · intro h; simp [helloFrame, startHeartbeat, h]
  · intro h; simp [helloFrame, startHeartbeat, h]

theorem closeCode_session_persistence_witness :
    (handleCloseCode 4007 { initialState with sessionId := "abc", sequence := 9 }
      = { initialState with sessionId := "", sequence := 0 }) ∧
    (handleCloseCode 1006 { initialState with sessionId := "abc", sequence := 9 }
      = { initialState with sessionId := "abc", sequence := 9 }) ∧
    (helloFrame (startHeartbeat { initialState with sessionId := "abc", sequence := 9 })
      = OutFrame.resume "abc" 9) :=
  ⟨(closeCode_session_persistence 4007 _).1 (Or.inr (Or.inl rfl)),
   (closeCode_session_persistence 1006 _).2.1 (by decide),
   (closeCode_session_persistence 9 { initialState with sessionId := "abc", sequence := 9 }).2.2.1
      (by decide)⟩

/-- C6: reconnect scheduling is mutually exclusive — a call to
`_scheduleReconnect` while the pending flag is set is a complete no-op, and
along every event trace from the initial client state at most one reconnect
timer is ever in flight. -/
theorem reconnect_scheduling_mutex :
    (∀ (m : Nat) (st : GatewayState), st.isReconnecting = true →
      scheduleReconnect m st = (st, false)) ∧
    (∀ (ignored : List String) (m : Nat) (evs : List GwEvent),
      (runGw ignored m initSys evs).pending ≤ 1) := by
  refine ⟨scheduleReconnect_noop_of_isReconnecting, ?_⟩
  intro ignored m evs
  have h0 : pendingInv initSys := by simp [pendingInv, initSys, initialState]
  have h := runGw_pendingInv ignored m evs initSys h0
  unfold pendingInv at h
  split_ifs at h <;> omega

theorem reconnect_scheduling_mutex_witness :
    ({ initialState with isReconnecting := true } : GatewayState).isReconnecting = true ∧
    scheduleReconnect 5 { initialState with isReconnecting := true }
      = ({ initialState with isReconnecting := true }, false) ∧
    (runGw [] 5 initSys [GwEvent.sched, GwEvent.sched, GwEvent.sched]).pending ≤ 1 :=
  ⟨rfl, reconnect_scheduling_mutex.1 5 _ rfl,
   reconnect_scheduling_mutex.2 [] 5 [GwEvent.sched, GwEvent.sched, GwEvent.sched]⟩

/-- C8: once `destroy()` has run, the destroyed flag stays set across every
subsequent internal event, and no reconnect-timer callback ever invokes
`connect()` again — the ghost `connects` counter never moves. -/
theorem destroy_cancels_pending_reconnect (ignored : List String) (m : Nat)
    (sys : GwSys) (evs : List GwEvent) :
    (runGw ignored m (stepGw ignored m sys GwEvent.destroyCall).1 evs).connects
      = sys.connects ∧
    (runGw ignored m (stepGw ignored m sys GwEvent.destroyCall).1 evs).gw.destroyed
      = true := by
  have hd : (stepGw ignored m sys GwEvent.destroyCall).1.gw.destroyed = true := by
    simp [stepGw, destroy, cleanup]
  have hc : (stepGw ignored m sys GwEvent.destroyCall).1.connects = sys.connects := by
    simp [stepGw]
  obtain ⟨h1, h2⟩ := runGw_destroyed_connects ignored m evs _ hd
  exact ⟨by rw [h2, hc], h1⟩

/-- C3 (counterexample): after HELLO and a first heartbeat tick the previous
heartbeat is still unacknowledged, yet a server-requested immediate heartbeat
frame (`op = Heartbeat`) is sent anyway — so a heartbeat IS sent while the
previous one is outstanding, refuting the claim for that send path. -/
theorem heartbeat_sent_while_unacked :
    (runGw [] 5 initSys
        [GwEvent.wsOpened, GwEvent.frame helloPkt, GwEvent.tick]).gw.heartbeatAcked
      = false ∧
    (stepGw [] 5
        (runGw [] 5 initSys [GwEvent.wsOpened, GwEvent.frame helloPkt, GwEvent.tick])
        (GwEvent.frame hbRequestPkt)).2.sends
      = [OutFrame.heartbeat none] := by
  constructor <;> decide

/-- C3 (amended): on the heartbeat-interval tick path the discipline holds —
a tick never sends while the previous heartbeat is unacknowledged; instead it
tears the transport down and (subject to the destroy/duplicate/max-attempt
guards) creates a reconnect timer.  The server-requested immediate heartbeat
path, however, sends unconditionally, even while a heartbeat is outstanding. -/
theorem heartbeat_tick_discipline (ignored : List String) (m : Nat)
    (st : GatewayState) :
    ((heartbeatTick m st).2.1 ≠ [] → st.heartbeatAcked = true) ∧
    (st.heartbeatAcked = false →
      (heartbeatTick m st).2.1 = [] ∧
      (heartbeatTick m st).1.heartbeatTimerActive = false ∧
      (heartbeatTick m st).1.wsOpen = false ∧
      (st.destroyed = false → st.isReconnecting = false →
        st.reconnectAttempts < m → (heartbeatTick m st).2.2 = true)) ∧
    (st.wsOpen = true →
      (handleMessage ignored m st hbRequestPkt).2.sends
        = [OutFrame.heartbeat (if st.sequence = 0 then none else some st.sequence)]) := by
  refine ⟨?_, ?_, ?_⟩
  · intro h
    by_contra hb
    have hb' : st.heartbeatAcked = false := by simpa using hb
    simp [heartbeatTick, hb'] at h
  · intro hb
    refine ⟨by simp [heartbeatTick, hb], ?_, ?_, ?_⟩
    · simp only [heartbeatTick, hb, if_true]
      rw [(scheduleReconnect_fields m _).2.2.2.2.1]
      simp [cleanup]
    · simp only [heartbeatTick, hb, if_true]
      rw [(scheduleReconnect_fields m _).2.2.2.1]
      simp [cleanup]
    · intro hd hr hatt
      simp only [heartbeatTick, hb, if_true]
      unfold scheduleReconnect
      simp [cleanup, hd, hr, Nat.not_le.mpr hatt]
  · intro hw
    simp [handleMessage, hbRequestPkt, trackSeq, sendHeartbeat, sendFrame, hw]

theorem heartbeat_tick_discipline_witness :
    (({ initialState with heartbeatAcked := false, wsOpen := true } : GatewayState).heartbeatAcked
        = false ∧
      ({ initialState with heartbeatAcked := false, wsOpen := true } : GatewayState).wsOpen
        = true) ∧
    (heartbeatTick 5 { initialState with heartbeatAcked := false, wsOpen := true }).2.1 = [] ∧
    (handleMessage [] 5 { initialState with heartbeatAcked := false, wsOpen := true }
        hbRequestPkt).2.sends = [OutFrame.heartbeat none] :=
  ⟨⟨rfl, rfl⟩,
   ((heartbeat_tick_discipline [] 5 _).2.1 rfl).1,
   by
     have h := (heartbeat_tick_discipline [] 5
        { initialState with heartbeatAcked := false, wsOpen := true }).2.2 rfl
     simpa using h⟩

/-- C4: for reconnect attempt `n ≥ 1` with base delay `base ≥ 0` seconds and
jitter draw `r ∈ [0, 1]`, the computed backoff is `min(2^(n-1)·base, 60)`
seconds and the scheduled delay lies between the backoff and 1.3 times the
backoff (the additive jitter is at most 30%). -/
theorem reconnect_delay_bounds (n : Nat) (base r : ℚ)
    (hn : 1 ≤ n) (hb : 0 ≤ base) (hr0 : 0 ≤ r) (hr1 : r ≤ 1) :
    backoffSeconds n base = min ((2 ^ (n - 1) : ℚ) * base) 60 ∧
    backoffSeconds n base * 1000 ≤ reconnectDelayMs n base r ∧
    reconnectDelayMs n base r ≤ (13 / 10) * (backoffSeconds n base * 1000) := by
  have hB : 0 ≤ backoffSeconds n base :=
    le_min (mul_nonneg (by positivity) hb) (by norm_num)
  refine ⟨rfl, ?_, ?_⟩
  · unfold reconnectDelayMs
    have hj : 0 ≤ r * (3 / 10) * backoffSeconds n base := by positivity
    nlinarith
  · unfold reconnectDelayMs
    have hj : r * (3 / 10) * backoffSeconds n base ≤ (3 / 10) * backoffSeconds n base := by
      nlinarith
    nlinarith

theorem reconnect_delay_bounds_witness :
    (1 ≤ 3 ∧ (0 : ℚ) ≤ 2 ∧ (0 : ℚ) ≤ 1 / 2 ∧ (1 / 2 : ℚ) ≤ 1) ∧
    (backoffSeconds 3 2 = min ((2 ^ (3 - 1) : ℚ) * 2) 60 ∧
      backoffSeconds 3 2 * 1000 ≤ reconnectDelayMs 3 2 (1 / 2) ∧
      reconnectDelayMs 3 2 (1 / 2) ≤ (13 / 10) * (backoffSeconds 3 2 * 1000)) :=
  ⟨⟨by norm_num, by norm_num, by norm_num, by norm_num⟩,
   reconnect_delay_bounds 3 2 (1 / 2) (by norm_num) (by norm_num) (by norm_num) (by norm_num)⟩

/-- C7: for `waitFor` with a positive timeout, once the promise settles the
handler has been removed and the timer cleared (the listener count is back at
its pre-call value) and the settled outcome never changes; while unsettled,
the timer firing settles it with the timeout rejection and a matching
filtered event settles it with that event — so exactly one of resolve/reject
fires. -/
theorem waitFor_timeout_exactly_one (timeout : Int) (h : 0 < timeout)
    (eventName : String) (filter : Nat → Bool) (n : Nat) :
    (∀ (evs : List WFEvent) (o : WaitOutcome),
      (runWaitFor eventName filter (initWaitFor (some timeout)) evs).outcome = some o →
      listenerCount n (runWaitFor eventName filter (initWaitFor (some timeout)) evs) = n ∧
      (runWaitFor eventName filter (initWaitFor (some timeout)) evs).timerActive = false ∧
      ∀ evs2 : List WFEvent,
        (runWaitFor eventName filter
            (runWaitFor eventName filter (initWaitFor (some timeout)) evs) evs2).outcome
          = some o) ∧
    (∀ evs : List WFEvent,
      (runWaitFor eventName filter (initWaitFor (some timeout)) evs).outcome = none →
      (runWaitFor eventName filter (initWaitFor (some timeout))
          (evs ++ [WFEvent.timerFire])).outcome = some WaitOutcome.rejectedTimeout ∧
      ∀ d : Nat, filter d = true →
        (runWaitFor eventName filter (initWaitFor (some timeout))
            (evs ++ [WFEvent.emitEv eventName d])).outcome
          = some (WaitOutcome.resolvedWith d)) := by
  have h0 : waitForInv true (initWaitFor (some timeout)) := by
    constructor
    · intro _
      exact ⟨rfl, by simp [initWaitFor, decide_eq_true h]⟩
    · intro o ho
      simp [initWaitFor] at ho
  constructor
  · intro evs o ho
    have hin := runWaitFor_inv eventName filter true evs _ h0
    obtain ⟨hl, ht⟩ := hin.2 o ho
    refine ⟨by simp [listenerCount, hl], ht, ?_⟩
    intro evs2
    rw [runWaitFor_fixed eventName filter evs2 _ hl ht]
    exact ho
  · intro evs ho
    have hin := runWaitFor_inv eventName filter true evs _ h0
    obtain ⟨hl, ht⟩ := hin.1 ho
    constructor
    · rw [runWaitFor_append_one]
      simp [stepWaitFor, ht]
    · intro d hf
      rw [runWaitFor_append_one]
      simp [stepWaitFor, hl, hf]

theorem waitFor_timeout_exactly_one_witness :
    ((0 : Int) < 30000 ∧
      (runWaitFor "MESSAGE_CREATE" (fun _ => true)
          (initWaitFor (some 30000)) []).outcome = none) ∧
    (runWaitFor "MESSAGE_CREATE" (fun _ => true) (initWaitFor (some 30000))
        [WFEvent.timerFire]).outcome = some WaitOutcome.rejectedTimeout :=
  ⟨⟨by norm_num, rfl⟩,
   by
     have h := (waitFor_timeout_exactly_one 30000 (by norm_num) "MESSAGE_CREATE"
        (fun _ => true) 0).2 [] rfl
     simpa using h.1⟩

/-- C10: for `waitFor` with an absent, zero or negative timeout, no timer is
installed, so along every event trace the timer stays disarmed, the promise
never rejects with the timeout error, and it can still resolve with any
matching filtered event. -/
theorem waitFor_no_timer_never_rejects (timeout : Option Int) (eventName : String)
    (filter : Nat → Bool)
    (h : timeout = none ∨ ∃ v, timeout = some v ∧ v ≤ 0) :
    (initWaitFor timeout).timerActive = false ∧
    ∀ evs : List WFEvent,
      (runWaitFor eventName filter (initWaitFor timeout) evs).timerActive = false ∧
      (runWaitFor eventName filter (initWaitFor timeout) evs).outcome
        ≠ some WaitOutcome.rejectedTimeout ∧
      ((runWaitFor eventName filter (initWaitFor timeout) evs).outcome = none →
        ∀ d : Nat, filter d = true →
          (runWaitFor eventName filter (initWaitFor timeout)
              (evs ++ [WFEvent.emitEv eventName d])).outcome
            = some (WaitOutcome.resolvedWith d)) := by
  have ht0 : (initWaitFor timeout).timerActive = false := by
    rcases h with h | ⟨v, hv, hle⟩
    · simp [initWaitFor, h]
    · simp [initWaitFor, hv, decide_eq_false (not_lt.mpr hle)]
  have h0 : waitForInv false (initWaitFor timeout) := by
    constructor
    · intro _; exact ⟨rfl, ht0⟩
    · intro o ho; simp [initWaitFor] at ho
  refine ⟨ht0, ?_⟩
  intro evs
  have hin := runWaitFor_inv eventName filter false evs _ h0
  have htA : (runWaitFor eventName filter (initWaitFor timeout) evs).timerActive = false := by
    cases ho : (runWaitFor eventName filter (initWaitFor timeout) evs).outcome with
    | none => exact (hin.1 ho).2
    | some o => exact (hin.2 o ho).2
  refine ⟨htA, ?_, ?_⟩
  · -- never the timeout rejection: rejection requires an armed timer at some
    -- step, but the invariant keeps the timer disarmed forever
    have hrej : ∀ (evs1 : List WFEvent),
        (runWaitFor eventName filter (initWaitFor timeout) evs1).outcome
          ≠ some WaitOutcome.rejectedTimeout := by
      intro evs1
      induction evs1 using List.reverseRecOn with
      | nil => simp [runWaitFor, initWaitFor]
      | append_singleton evs1 e ih =>
          rw [runWaitFor_append_one]
          have hin1 := runWaitFor_inv eventName filter false evs1 _ h0
          have ht1 : (runWaitFor eventName filter (initWaitFor timeout) evs1).timerActive
              = false := by
            cases ho : (runWaitFor eventName filter (initWaitFor timeout) evs1).outcome with
            | none => exact (hin1.1 ho).2
            | some o => exact (hin1.2 o ho).2
          cases e
          case emitEv name d =>
            by_cases hc : (runWaitFor eventName filter (initWaitFor timeout) evs1).listenerActive
                = true ∧ name = eventName
            · by_cases hf : filter d = true
              · simp [stepWaitFor, hc, hf]
              · simpa [stepWaitFor, hc, hf] using ih
            · simpa [stepWaitFor, hc] using ih
          case timerFire =>
            simpa [stepWaitFor, ht1] using ih
    exact hrej evs
  · intro ho d hf
    have hl := (hin.1 ho).1
    rw [runWaitFor_append_one]
    simp [stepWaitFor, hl, hf]

theorem waitFor_no_timer_never_rejects_witness :
    ((some (0 : Int) = none ∨ ∃ v, some (0 : Int) = some v ∧ v ≤ 0) ∧ True) ∧
    ((initWaitFor (some 0)).timerActive = false ∧
      (runWaitFor "MESSAGE_CREATE" (fun _ => true) (initWaitFor (some 0))
          [WFEvent.timerFire]).outcome ≠ some WaitOutcome.rejectedTimeout) :=
  ⟨⟨Or.inr ⟨0, rfl, le_refl 0⟩, trivial⟩,
   (waitFor_no_timer_never_rejects (some 0) "MESSAGE_CREATE" (fun _ => true)
      (Or.inr ⟨0, rfl, le_refl 0⟩)).1,
   ((waitFor_no_timer_never_rejects (some 0) "MESSAGE_CREATE" (fun _ => true)
      (Or.inr ⟨0, rfl, le_refl 0⟩)).2 [WFEvent.timerFire]).2.1⟩

/-- C9: for every serialized sequence of admission attempts against one
bucket, the number of recorded timestamps — in particular those younger than
`windowMs` — never exceeds `limit` after any admission decision; and a bucket
at capacity tells its caller to retry exactly at
`oldestRemainingTimestamp + windowMs`, so the next admission happens no
earlier than that instant. -/
theorem bucket_window_invariant (limit : Nat) (windowMs : ℤ) :
    (∀ (attempts : List ℤ) (now : ℤ),
      youngCount windowMs now (runBucket limit windowMs attempts) ≤ limit ∧
      (runBucket limit windowMs attempts).length ≤ limit) ∧
    (∀ (ts : List ℤ) (now w : ℤ),
      acquire limit windowMs ts now = AcquireResult.waitMs w →
      limit ≤ (prune windowMs now ts).length ∧
      now + w = (prune windowMs now ts).headD 0 + windowMs) := by
  constructor
  · intro attempts now
    have hlen := runBucket_length limit windowMs attempts
    refine ⟨le_trans ?_ hlen, hlen⟩
    exact List.length_filter_le _ _
  · intro ts now w hacq
    unfold acquire at hacq
    dsimp only at hacq
    split_ifs at hacq with hlen
    cases hacq
    exact ⟨Nat.le_of_not_lt hlen, by ring⟩

theorem bucket_window_invariant_witness :
    (youngCount 10 5 (runBucket 1 10 [0, 5]) ≤ 1 ∧
      acquire 1 10 [0] 5 = AcquireResult.waitMs 5) ∧
    (1 ≤ (prune 10 5 [0]).length ∧ (5 : ℤ) + 5 = (prune 10 5 [0]).headD 0 + 10) :=
  ⟨⟨((bucket_window_invariant 1 10).1 [0, 5] 5).1, by decide⟩,
   (bucket_window_invariant 1 10).2 [0] 5 5 (by decide)⟩

end Fluxor
